import Mathlib

/-!
Verification of the CodeClarity scheduler service (src/scheduler.go, with the
alternative main in src/unnamed/part_000 for the AMQP publish details and the
environment-based configuration).

The embedding models Go `time.Time` and `time.Duration` as `Int` nanoseconds,
the `analysis` table as a `List` of rows, and the three external side effects of
`processAnalysis` (HTTP execution-creation call, AMQP publish, SQL update) by an
explicit environment recording each interaction's outcome.  The opaque JSONB
payloads `Config` and `Steps` are type parameters: the scheduler only copies
them verbatim.
-/

namespace Scheduler

/-- Go `time.Hour` expressed in nanoseconds (the unit of `time.Duration`). -/
def hour : Int := 3600000000000

/-- Row of the `analysis` table as mapped by the `ScheduledAnalysis` bun model
(src/scheduler.go lines 17-39).  Timestamps are `Int` nanoseconds; nullable
columns are `Option`. -/
structure ScheduledAnalysis (Cfg Steps : Type) where
  id : String
  createdOn : Int
  config : Cfg
  stage : Int
  status : String
  steps : Steps
  startedOn : Option Int
  endedOn : Option Int
  branch : String
  tag : Option String
  commitHash : Option String
  scheduleType : Option String
  nextScheduledRun : Option Int
  isActive : Bool
  lastScheduledRun : Option Int
  projectID : String
  analyzerID : String
  organizationID : String
  integrationID : Option String
  createdByID : String
  deriving DecidableEq

/-- The row predicate of the select in `processDueAnalyses`
(src/scheduler.go lines 94-99):
`is_active = true AND schedule_type IN ('daily','weekly') AND
next_scheduled_run <= now`, with SQL tri-state semantics: a NULL
`schedule_type` or NULL `next_scheduled_run` makes the condition non-true, so
the row is not selected. -/
def isDueAnalysis {Cfg Steps : Type} (now : Int) (a : ScheduledAnalysis Cfg Steps) : Bool :=
  (a.isActive == true) &&
    (match a.scheduleType with
     | some st => st == "daily" || st == "weekly"
     | none => false) &&
    (match a.nextScheduledRun with
     | some t => decide (t ≤ now)
     | none => false)

/-- Due-item discovery: the rows returned by the select in
`processDueAnalyses` when the store holds `db` and the query runs at `now`. -/
def processDueAnalysesSelect {Cfg Steps : Type} (db : List (ScheduledAnalysis Cfg Steps))
    (now : Int) : List (ScheduledAnalysis Cfg Steps) :=
  db.filter (fun a => isDueAnalysis now a)

/-- Outcome of the `http.Post` call in `createAnalysisExecution` when the
transport succeeded: the HTTP status code, together with the outcome of
JSON-decoding the response body into the anonymous struct with the single
field `ID string json:id` (`Except.error` when the decoder fails). -/
structure ApiResponse where
  statusCode : Int
  decodeId : Except String String

/-- `createAnalysisExecution` (src/scheduler.go lines 152-176), as a function
of the `http.Post` outcome (`Except.error` = transport error).  Returns the id
decoded from the body on HTTP 201, and an error otherwise. -/
def createAnalysisExecution (post : Except String ApiResponse) : Except String String :=
  match post with
  | Except.error e => Except.error ("failed to call API: " ++ e)
  | Except.ok resp =>
    if resp.statusCode ≠ 201 then
      Except.error ("API returned status " ++ toString resp.statusCode)
    else
      match resp.decodeId with
      | Except.error e => Except.error ("failed to decode response: " ++ e)
      | Except.ok id => Except.ok id

/-- A value of the JSON object built by `sendAnalysisMessage`: a string, a
nullable string, or the opaque config object. -/
inductive JsonField (Cfg : Type) where
  | str (s : String)
  | nullableStr (s : Option String)
  | obj (c : Cfg)
  deriving DecidableEq

/-- The message map literal of `sendAnalysisMessage`
(src/scheduler.go lines 180-186), in source order. -/
def analysisMessageBody {Cfg Steps : Type} (analysis : ScheduledAnalysis Cfg Steps)
    (newAnalysisId : String) : List (String × JsonField Cfg) :=
  [ ("analysis_id", JsonField.str newAnalysisId),
    ("project_id", JsonField.str analysis.projectID),
    ("integration_id", JsonField.nullableStr analysis.integrationID),
    ("organization_id", JsonField.str analysis.organizationID),
    ("config", JsonField.obj analysis.config) ]

/-- Arguments of the `ch.QueueDeclare` call in `sendAnalysisMessage`
(src/unnamed/part_000 lines 221-228). -/
structure QueueDeclaration where
  name : String
  durable : Bool
  autoDelete : Bool
  exclusive : Bool
  noWait : Bool
  deriving DecidableEq

/-- Arguments of the `ch.Publish` call in `sendAnalysisMessage`
(src/unnamed/part_000 lines 247-255). -/
structure Publishing (Cfg : Type) where
  exchange : String
  routingKey : String
  mandatory : Bool
  immediate : Bool
  contentType : String
  body : List (String × JsonField Cfg)
  deriving DecidableEq

/-- `sendAnalysisMessage` (src/scheduler.go lines 178-195 together with the
explicit AMQP version in src/unnamed/part_000 lines 208-256): the queue
declaration and the publishing it performs.  `queue` is the configured queue
name (`"api_request"` in src/scheduler.go line 194). -/
def sendAnalysisMessage {Cfg Steps : Type} (queue : String)
    (analysis : ScheduledAnalysis Cfg Steps) (newAnalysisId : String) :
    QueueDeclaration × Publishing Cfg :=
  (⟨queue, true, false, false, false⟩,
   ⟨"", queue, false, false, "application/json", analysisMessageBody analysis newAnalysisId⟩)

/-- `calculateNextRun` (src/scheduler.go lines 197-210). -/
def calculateNextRun (scheduleType : Option String) (t : Int) : Int :=
  match scheduleType with
  | none => t + 24 * hour
  | some st =>
    if st = "daily" then t + 24 * hour
    else if st = "weekly" then t + 7 * 24 * hour
    else t + 24 * hour

/-- Which arm of `calculateNextRun` fires: the nil fallback, the `"daily"`
case, the `"weekly"` case, or the unrecognized-kind default, mirroring the
control structure of src/scheduler.go lines 197-210. -/
inductive NextRunBranch where
  | nilDefault
  | daily
  | weekly
  | unknownDefault
  deriving DecidableEq

/-- Branch indicator of `calculateNextRun`, with the identical case
structure. -/
def calculateNextRunBranch (scheduleType : Option String) : NextRunBranch :=
  match scheduleType with
  | none => NextRunBranch.nilDefault
  | some st =>
    if st = "daily" then NextRunBranch.daily
    else if st = "weekly" then NextRunBranch.weekly
    else NextRunBranch.unknownDefault

/-- Environment of one `processAnalysis` invocation: the outcome of each
external interaction, and the value captured by `time.Now()` at
src/scheduler.go line 134. -/
structure ProcessEnv where
  post : Except String ApiResponse
  sendOk : Bool
  updateOk : Bool
  now : Int

/-- The SET clause of the update executed by `processAnalysis`
(src/scheduler.go lines 137-142): row key and the two written columns. -/
structure ScheduleUpdate where
  id : String
  lastScheduledRun : Int
  nextScheduledRun : Int
  deriving DecidableEq

/-- Effect trace of one `processAnalysis` invocation: the messages that
reached the queue and the store update that was persisted (none when the
invocation aborted before the update or the update failed). -/
structure ProcessTrace (Cfg : Type) where
  published : List (Publishing Cfg)
  storeUpdate : Option ScheduleUpdate
  deriving DecidableEq

/-- `processAnalysis` (src/scheduler.go lines 113-150) as an effect trace:
abort on trigger-creation failure; publish, then abort on dispatch failure;
otherwise capture `now`, compute the next run and attempt the update. -/
def processAnalysis {Cfg Steps : Type} (env : ProcessEnv) (queue : String)
    (analysis : ScheduledAnalysis Cfg Steps) : ProcessTrace Cfg :=
  match createAnalysisExecution env.post with
  | Except.error _ => ⟨[], none⟩
  | Except.ok newAnalysisId =>
    if env.sendOk then
      let now := env.now
      let nextRun := calculateNextRun analysis.scheduleType now
      if env.updateOk then
        ⟨[(sendAnalysisMessage queue analysis newAnalysisId).2],
         some ⟨analysis.id, now, nextRun⟩⟩
      else
        ⟨[(sendAnalysisMessage queue analysis newAnalysisId).2], none⟩
    else
      ⟨[], none⟩

/-- Store effect of the update in `processAnalysis`: set
`last_scheduled_run` and `next_scheduled_run` on every row whose `id` matches
(the primary key, so at most one row). -/
def applyScheduleUpdate {Cfg Steps : Type} (db : List (ScheduledAnalysis Cfg Steps)) :
    Option ScheduleUpdate → List (ScheduledAnalysis Cfg Steps)
  | none => db
  | some u => db.map (fun a =>
      if a.id = u.id then
        { a with lastScheduledRun := some u.lastScheduledRun,
                 nextScheduledRun := some u.nextScheduledRun }
      else a)

/-- One `processAnalysis` invocation together with its effect on the store:
the published messages and the resulting table contents. -/
def runProcessAnalysis {Cfg Steps : Type} (env : ProcessEnv) (queue : String)
    (db : List (ScheduledAnalysis Cfg Steps)) (analysis : ScheduledAnalysis Cfg Steps) :
    List (Publishing Cfg) × List (ScheduledAnalysis Cfg Steps) :=
  let tr := processAnalysis env queue analysis
  (tr.published, applyScheduleUpdate db tr.storeUpdate)

/-- `getEnv` (src/unnamed/part_000 lines 94-99): the Go environment is a total
map from names to strings, empty string meaning unset. -/
def getEnv (env : String → String) (key defaultValue : String) : String :=
  if env key ≠ "" then env key else defaultValue

/-- The `apiURL` set by `CreateSchedulerService` (src/scheduler.go line 65):
a hardcoded constant, taking no input from the environment. -/
def createSchedulerServiceApiURL (_env : String → String) : String :=
  "http://api:3000"

/-- The `apiURL` set by `NewScheduler` (src/unnamed/part_000 line 80):
environment-supplied with a documented default. -/
def newSchedulerApiURL (env : String → String) : String :=
  getEnv env "API_BASE_URL" "http://localhost:3000"

/-! ## Helper lemmas -/

theorem hour_pos : 0 < hour := by norm_num [hour]

/-- Unfolding of the due-row predicate into its three conjuncts. -/
theorem isDueAnalysis_iff {Cfg Steps : Type} (now : Int) (a : ScheduledAnalysis Cfg Steps) :
    isDueAnalysis now a = true ↔
      a.isActive = true ∧
      (a.scheduleType = some "daily" ∨ a.scheduleType = some "weekly") ∧
      ∃ t0, a.nextScheduledRun = some t0 ∧ t0 ≤ now := by
  unfold isDueAnalysis
  cases hst : a.scheduleType with
  | none => simp [hst]
  | some st =>
    cases hnr : a.nextScheduledRun with
    | none => simp [hst, hnr]
    | some t0 => simp [hst, hnr, and_assoc]

/-- Every arm of `calculateNextRun` strictly advances the timestamp. -/
theorem calculateNextRun_gt (st : Option String) (t : Int) : t < calculateNextRun st t := by
  have hpos : 0 < hour := hour_pos
  cases st with
  | none =>
    show t < t + 24 * hour
    linarith
  | some s =>
    show t < if s = "daily" then t + 24 * hour
             else if s = "weekly" then t + 7 * 24 * hour else t + 24 * hour
    split_ifs <;> linarith

/-! ## Concrete sample data for witnesses -/

/-- A concrete row: active, daily, due at time 0. -/
def sampleAnalysis : ScheduledAnalysis Unit Unit :=
  { id := "A", createdOn := 0, config := (), stage := 1, status := "scheduled", steps := (),
    startedOn := none, endedOn := none, branch := "main", tag := none, commitHash := none,
    scheduleType := some "daily", nextScheduledRun := some 0, isActive := true,
    lastScheduledRun := none, projectID := "P", analyzerID := "Z", organizationID := "O",
    integrationID := none, createdByID := "U" }

/-- A one-row store holding `sampleAnalysis`. -/
def sampleDb : List (ScheduledAnalysis Unit Unit) := [sampleAnalysis]

/-- Environment where the `http.Post` transport fails. -/
def envCreateFail : ProcessEnv := ⟨Except.error "connection refused", true, true, 5⟩

/-- Environment where trigger-creation succeeds with id `"E1"` but the
publish fails. -/
def envSendFail : ProcessEnv := ⟨Except.ok ⟨201, Except.ok "E1"⟩, false, true, 5⟩

/-- Environment where every step succeeds (new execution id `"E1"`). -/
def envAllOk : ProcessEnv := ⟨Except.ok ⟨201, Except.ok "E1"⟩, true, true, 5⟩

/-- Environment where the API answers 201 but the body fails to decode. -/
def envDecodeFail : ProcessEnv := ⟨Except.ok ⟨201, Except.error "unexpected EOF"⟩, true, true, 5⟩

/-! ## Claims -/

/-- Claim C3: due-item discovery returns exactly the rows satisfying the
eligibility invariant: `isActive` true, `scheduleType` equal to `"daily"` or
`"weekly"`, and `nextScheduledRun` present and at most `now`; in particular
inactive rows and rows with absent or future `nextScheduledRun` are never
returned. -/
theorem c3_discovery_returns_exactly_eligible {Cfg Steps : Type}
    (db : List (ScheduledAnalysis Cfg Steps)) (now : Int) (a : ScheduledAnalysis Cfg Steps) :
    a ∈ processDueAnalysesSelect db now ↔
      a ∈ db ∧ a.isActive = true ∧
      (a.scheduleType = some "daily" ∨ a.scheduleType = some "weekly") ∧
      ∃ t0, a.nextScheduledRun = some t0 ∧ t0 ≤ now := by
  unfold processDueAnalysesSelect
  rw [List.mem_filter, isDueAnalysis_iff]

/-- Claim C4: `calculateNextRun` returns `from + 24h` for `"daily"`, for an
absent kind and for an unrecognized kind (fallback, not an error), and
`from + 7*24h` for `"weekly"`. -/
theorem c4_calculateNextRun_cases (t : Int) :
    calculateNextRun none t = t + 24 * hour ∧
    calculateNextRun (some "daily") t = t + 24 * hour ∧
    calculateNextRun (some "weekly") t = t + 7 * 24 * hour ∧
    ∀ st : String, st ≠ "daily" → st ≠ "weekly" →
      calculateNextRun (some st) t = t + 24 * hour := by
  refine ⟨rfl, by simp [calculateNextRun], by simp [calculateNextRun], ?_⟩
  intro st h1 h2
  simp [calculateNextRun, h1, h2]

/-- Witness for C4 at `t = 0` with the unrecognized kind `"monthly"`. -/
theorem c4_witness :
    calculateNextRun none 0 = 0 + 24 * hour ∧
    calculateNextRun (some "daily") 0 = 0 + 24 * hour ∧
    calculateNextRun (some "weekly") 0 = 0 + 7 * 24 * hour ∧
    calculateNextRun (some "monthly") 0 = 0 + 24 * hour :=
  ⟨(c4_calculateNextRun_cases 0).1, (c4_calculateNextRun_cases 0).2.1,
   (c4_calculateNextRun_cases 0).2.2.1,
   (c4_calculateNextRun_cases 0).2.2.2 "monthly" (by decide) (by decide)⟩

/-- Claim C7: the message built and published by `sendAnalysisMessage` is a
JSON object with exactly the fields `analysis_id` (the new execution id),
`project_id`, `integration_id` (nullable), `organization_id` and `config`,
all but `analysis_id` copied verbatim from the row, published with
content-type `application/json` on the default exchange to the named queue,
which is declared durable. -/
theorem c7_message_shape {Cfg Steps : Type} (queue : String)
    (analysis : ScheduledAnalysis Cfg Steps) (newAnalysisId : String) :
    (sendAnalysisMessage queue analysis newAnalysisId).1.name = queue ∧
    (sendAnalysisMessage queue analysis newAnalysisId).1.durable = true ∧
    (sendAnalysisMessage queue analysis newAnalysisId).2.exchange = "" ∧
    (sendAnalysisMessage queue analysis newAnalysisId).2.routingKey = queue ∧
    (sendAnalysisMessage queue analysis newAnalysisId).2.contentType = "application/json" ∧
    (sendAnalysisMessage queue analysis newAnalysisId).2.body.map Prod.fst =
      ["analysis_id", "project_id", "integration_id", "organization_id", "config"] ∧
    (sendAnalysisMessage queue analysis newAnalysisId).2.body =
      [ ("analysis_id", JsonField.str newAnalysisId),
        ("project_id", JsonField.str analysis.projectID),
        ("integration_id", JsonField.nullableStr analysis.integrationID),
        ("organization_id", JsonField.str analysis.organizationID),
        ("config", JsonField.obj analysis.config) ] := by
  refine ⟨rfl, rfl, rfl, rfl, rfl, rfl, rfl⟩

/-- Claim C9: every row that discovery hands to `processAnalysis` has
`scheduleType` equal to `some "daily"` or `some "weekly"`, so on the
poll-loop path `calculateNextRun` never takes its nil-fallback or
unrecognized-kind default branch. -/
theorem c9_discovery_never_hits_fallback {Cfg Steps : Type}
    (db : List (ScheduledAnalysis Cfg Steps)) (now : Int) (a : ScheduledAnalysis Cfg Steps)
    (h : a ∈ processDueAnalysesSelect db now) :
    (a.scheduleType = some "daily" ∨ a.scheduleType = some "weekly") ∧
    calculateNextRunBranch a.scheduleType ≠ NextRunBranch.nilDefault ∧
    calculateNextRunBranch a.scheduleType ≠ NextRunBranch.unknownDefault := by
  unfold processDueAnalysesSelect at h
  rw [List.mem_filter, isDueAnalysis_iff] at h
  obtain ⟨-, -, hkind, -⟩ := h
  refine ⟨hkind, ?_, ?_⟩ <;> rcases hkind with hk | hk <;> rw [hk] <;> decide

/-- Witness for C9: the sample daily row is returned by discovery at time 0
and lands in the `"daily"` branch. -/
theorem c9_witness :
    (sampleAnalysis.scheduleType = some "daily" ∨ sampleAnalysis.scheduleType = some "weekly") ∧
    calculateNextRunBranch sampleAnalysis.scheduleType ≠ NextRunBranch.nilDefault ∧
    calculateNextRunBranch sampleAnalysis.scheduleType ≠ NextRunBranch.unknownDefault :=
  c9_discovery_never_hits_fallback sampleDb 0 sampleAnalysis (by decide)

/-- Claim C1: when trigger-creation fails, `processAnalysis` publishes no
message and persists no store update; the table is unchanged, so due-item
discovery returns the same rows at every later query time and the item is
re-selected. -/
theorem c1_create_failure_is_noop {Cfg Steps : Type} (env : ProcessEnv) (queue : String)
    (db : List (ScheduledAnalysis Cfg Steps)) (analysis : ScheduledAnalysis Cfg Steps)
    (e : String) (h : createAnalysisExecution env.post = Except.error e) :
    (processAnalysis env queue analysis).published = [] ∧
    (processAnalysis env queue analysis).storeUpdate = none ∧
    (runProcessAnalysis env queue db analysis).2 = db ∧
    ∀ t : Int,
      processDueAnalysesSelect (runProcessAnalysis env queue db analysis).2 t =
        processDueAnalysesSelect db t := by
  simp [processAnalysis, runProcessAnalysis, applyScheduleUpdate, h]

/-- Witness for C1 at the concrete failing-transport environment. -/
theorem c1_witness :
    (processAnalysis envCreateFail "api_request" sampleAnalysis).published = [] ∧
    (processAnalysis envCreateFail "api_request" sampleAnalysis).storeUpdate = none ∧
    (runProcessAnalysis envCreateFail "api_request" sampleDb sampleAnalysis).2 = sampleDb ∧
    ∀ t : Int,
      processDueAnalysesSelect (runProcessAnalysis envCreateFail "api_request" sampleDb sampleAnalysis).2 t =
        processDueAnalysesSelect sampleDb t :=
  c1_create_failure_is_noop envCreateFail "api_request" sampleDb sampleAnalysis
    "failed to call API: connection refused" (by rfl)

/-- Claim C2: when trigger-creation succeeds but the dispatch fails,
`processAnalysis` persists no store update; the table is unchanged and the
item remains due for the next tick. -/
theorem c2_dispatch_failure_no_store_update {Cfg Steps : Type} (env : ProcessEnv)
    (queue : String) (db : List (ScheduledAnalysis Cfg Steps))
    (analysis : ScheduledAnalysis Cfg Steps) (newId : String)
    (hcreate : createAnalysisExecution env.post = Except.ok newId)
    (hsend : env.sendOk = false) :
    (processAnalysis env queue analysis).storeUpdate = none ∧
    (runProcessAnalysis env queue db analysis).2 = db ∧
    ∀ t : Int,
      processDueAnalysesSelect (runProcessAnalysis env queue db analysis).2 t =
        processDueAnalysesSelect db t := by
  simp [processAnalysis, runProcessAnalysis, applyScheduleUpdate, hcreate, hsend]

/-- Witness for C2 at the concrete publish-failure environment. -/
theorem c2_witness :
    (processAnalysis envSendFail "api_request" sampleAnalysis).storeUpdate = none ∧
    (runProcessAnalysis envSendFail "api_request" sampleDb sampleAnalysis).2 = sampleDb ∧
    ∀ t : Int,
      processDueAnalysesSelect (runProcessAnalysis envSendFail "api_request" sampleDb sampleAnalysis).2 t =
        processDueAnalysesSelect sampleDb t :=
  c2_dispatch_failure_no_store_update envSendFail "api_request" sampleDb sampleAnalysis
    "E1" (by rfl) (by rfl)

/-- Claim C5: a fully successful `processAnalysis` invocation on an item that
discovery selected strictly advances its `nextScheduledRun`: the persisted
value exceeds the previous one (the update time is at least the selection
time, and both arms add a positive interval). -/
theorem c5_reschedule_strictly_advances {Cfg Steps : Type} (env : ProcessEnv)
    (queue : String) (db : List (ScheduledAnalysis Cfg Steps))
    (analysis : ScheduledAnalysis Cfg Steps) (nowSel : Int) (newId : String)
    (hsel : analysis ∈ processDueAnalysesSelect db nowSel)
    (hclock : nowSel ≤ env.now)
    (hcreate : createAnalysisExecution env.post = Except.ok newId)
    (hsend : env.sendOk = true) (hupd : env.updateOk = true) :
    ∃ u t0, (processAnalysis env queue analysis).storeUpdate = some u ∧
      analysis.nextScheduledRun = some t0 ∧ t0 < u.nextScheduledRun := by
  unfold processDueAnalysesSelect at hsel
  rw [List.mem_filter, isDueAnalysis_iff] at hsel
  obtain ⟨-, -, -, t0, hnr, hle⟩ := hsel
  refine ⟨⟨analysis.id, env.now, calculateNextRun analysis.scheduleType env.now⟩, t0, ?_, hnr, ?_⟩
  · simp [processAnalysis, hcreate, hsend, hupd]
  · exact lt_of_le_of_lt (le_trans hle hclock) (calculateNextRun_gt _ _)

/-- Witness for C5: the sample row selected at time 0 and processed with the
all-success environment at time 5. -/
theorem c5_witness :
    ∃ u t0, (processAnalysis envAllOk "api_request" sampleAnalysis).storeUpdate = some u ∧
      sampleAnalysis.nextScheduledRun = some t0 ∧ t0 < u.nextScheduledRun :=
  c5_reschedule_strictly_advances envAllOk "api_request" sampleDb sampleAnalysis 0 "E1"
    (by decide) (by decide) (by rfl) (by rfl) (by rfl)

/-- Claim C6: after a fully successful `processAnalysis` cycle the persisted
update carries the item's id, `lastScheduledRun` equal to the captured `now`,
and `nextScheduledRun` equal to that same `now` plus 24h for `"daily"`,
absent and unknown kinds, and plus 7*24h for `"weekly"`; every matching row
of the table receives exactly these two fields. -/
theorem c6_reschedule_fields {Cfg Steps : Type} (env : ProcessEnv) (queue : String)
    (analysis : ScheduledAnalysis Cfg Steps) (newId : String)
    (hcreate : createAnalysisExecution env.post = Except.ok newId)
    (hsend : env.sendOk = true) (hupd : env.updateOk = true) :
    ∃ u, (processAnalysis env queue analysis).storeUpdate = some u ∧
      u.id = analysis.id ∧
      u.lastScheduledRun = env.now ∧
      (analysis.scheduleType = none →
        u.nextScheduledRun = u.lastScheduledRun + 24 * hour) ∧
      (analysis.scheduleType = some "daily" →
        u.nextScheduledRun = u.lastScheduledRun + 24 * hour) ∧
      (analysis.scheduleType = some "weekly" →
        u.nextScheduledRun = u.lastScheduledRun + 7 * 24 * hour) ∧
      (∀ st : String, analysis.scheduleType = some st → st ≠ "daily" → st ≠ "weekly" →
        u.nextScheduledRun = u.lastScheduledRun + 24 * hour) ∧
      ∀ db : List (ScheduledAnalysis Cfg Steps),
        (runProcessAnalysis env queue db analysis).2 = db.map (fun a =>
          if a.id = analysis.id then
            { a with lastScheduledRun := some u.lastScheduledRun,
                     nextScheduledRun := some u.nextScheduledRun }
          else a) := by
  refine ⟨⟨analysis.id, env.now, calculateNextRun analysis.scheduleType env.now⟩,
    ?_, rfl, rfl, ?_, ?_, ?_, ?_, ?_⟩
  · simp [processAnalysis, hcreate, hsend, hupd]
  · intro h
    simp [calculateNextRun, h]
  · intro h
    simp [calculateNextRun, h]
  · intro h
    simp [calculateNextRun, h]
  · intro st hst h1 h2
    simp [calculateNextRun, hst, h1, h2]
  · intro db
    simp [runProcessAnalysis, processAnalysis, hcreate, hsend, hupd, applyScheduleUpdate]

/-- Witness for C6 at the all-success environment: the sample daily row is
rescheduled to `5 + 24 * hour` with `lastScheduledRun = 5`. -/
theorem c6_witness :
    ∃ u, (processAnalysis envAllOk "api_request" sampleAnalysis).storeUpdate = some u ∧
      u.id = sampleAnalysis.id ∧
      u.lastScheduledRun = envAllOk.now ∧
      (sampleAnalysis.scheduleType = none →
        u.nextScheduledRun = u.lastScheduledRun + 24 * hour) ∧
      (sampleAnalysis.scheduleType = some "daily" →
        u.nextScheduledRun = u.lastScheduledRun + 24 * hour) ∧
      (sampleAnalysis.scheduleType = some "weekly" →
        u.nextScheduledRun = u.lastScheduledRun + 7 * 24 * hour) ∧
      (∀ st : String, sampleAnalysis.scheduleType = some st → st ≠ "daily" → st ≠ "weekly" →
        u.nextScheduledRun = u.lastScheduledRun + 24 * hour) ∧
      ∀ db : List (ScheduledAnalysis Unit Unit),
        (runProcessAnalysis envAllOk "api_request" db sampleAnalysis).2 = db.map (fun a =>
          if a.id = sampleAnalysis.id then
            { a with lastScheduledRun := some u.lastScheduledRun,
                     nextScheduledRun := some u.nextScheduledRun }
          else a) :=
  c6_reschedule_fields envAllOk "api_request" sampleAnalysis "E1" (by rfl) (by rfl) (by rfl)

/-- Claim C10: `createAnalysisExecution` fails not only on a non-201 status
but also when the status is 201 and the body fails to decode; in the latter
case `processAnalysis` aborts with nothing published and no store update,
exactly as for a non-201 response. -/
theorem c10_decode_failure_aborts {Cfg Steps : Type} (env : ProcessEnv) (queue : String)
    (db : List (ScheduledAnalysis Cfg Steps)) (analysis : ScheduledAnalysis Cfg Steps)
    (resp : ApiResponse) (hpost : env.post = Except.ok resp) :
    (resp.statusCode ≠ 201 →
      createAnalysisExecution env.post =
        Except.error ("API returned status " ++ toString resp.statusCode)) ∧
    ∀ e : String, resp.statusCode = 201 → resp.decodeId = Except.error e →
      createAnalysisExecution env.post =
        Except.error ("failed to decode response: " ++ e) ∧
      (processAnalysis env queue analysis).published = [] ∧
      (processAnalysis env queue analysis).storeUpdate = none ∧
      (runProcessAnalysis env queue db analysis).2 = db := by
  constructor
  · intro hne
    simp [createAnalysisExecution, hpost, hne]
  · intro e h201 hdec
    have hcr : createAnalysisExecution env.post =
        Except.error ("failed to decode response: " ++ e) := by
      simp [createAnalysisExecution, hpost, h201, hdec]
    exact ⟨hcr, by simp [processAnalysis, runProcessAnalysis, applyScheduleUpdate, hcr]⟩

/-- Witness for C10 at the concrete 201-with-undecodable-body environment. -/
theorem c10_witness :
    createAnalysisExecution envDecodeFail.post =
      Except.error ("failed to decode response: " ++ "unexpected EOF") ∧
    (processAnalysis envDecodeFail "api_request" sampleAnalysis).published = [] ∧
    (processAnalysis envDecodeFail "api_request" sampleAnalysis).storeUpdate = none ∧
    (runProcessAnalysis envDecodeFail "api_request" sampleDb sampleAnalysis).2 = sampleDb :=
  (c10_decode_failure_aborts envDecodeFail "api_request" sampleDb sampleAnalysis
    ⟨201, Except.error "unexpected EOF"⟩ (by rfl)).2 "unexpected EOF" (by rfl) (by rfl)

/-- Claim C8, divergence: `CreateSchedulerService` uses the hardcoded base
URL `http://api:3000` even when the environment sets `API_BASE_URL` (the
variable the repository README documents, and which the alternative
`NewScheduler` reads with default `http://localhost:3000`). -/
theorem c8_apiURL_ignores_environment :
    createSchedulerServiceApiURL
        (fun k => if k = "API_BASE_URL" then "http://example.com" else "") =
      "http://api:3000" ∧
    newSchedulerApiURL
        (fun k => if k = "API_BASE_URL" then "http://example.com" else "") =
      "http://example.com" ∧
    getEnv (fun _ => "") "API_BASE_URL" "http://localhost:3000" = "http://localhost:3000" ∧
    ("http://api:3000" : String) ≠ "http://example.com" := by
  refine ⟨rfl, ?_, ?_, by decide⟩
  · simp [newSchedulerApiURL, getEnv]
  · simp [getEnv]

end Scheduler
